import Mathlib

/-!
Shallow embedding of the power-flow orchestration layer
(`pandapower/powerflow.py`): the full-solve entry point `_powerflow`, the
incremental entry point `_recycled_powerflow`, the algorithm dispatcher
`_run_pf_algorithm`, the result writer `_ppci_to_net`, and the branch-less
direct path `_pf_without_branches`.

Numeric arrays are modelled as lists of integer rows (only their shape and
identity matter to the orchestration layer).  External collaborators
(the internal-case builder, the solver backends, result extraction,
cleanup, auxiliary-element bookkeeping) live outside this file's source
and are modelled as an abstract record of functions `Externals` over which
the theorems quantify; where a theorem needs a fact about a collaborator
(for example that cleanup does not rewrite the configuration), that fact
appears as an explicit hypothesis justified by the specification.
Python exceptions are modelled by returning the mutated state together
with an optional error: a raising path returns `(net, some e)`, keeping
the mutations already performed, exactly as a propagating Python
exception would.
-/

/-- A numeric array: a list of rows. Row contents never influence the
orchestration logic, only shapes and wholesale replacement do. -/
abbrev Arr : Type := List (List Int)

/-- The `internal` sub-structure cached on `net["_ppc"]`: the previously
built solver arrays plus scratch state (admittance matrix etc.). -/
structure Internal where
  bus : Arr
  gen : Arr
  branch : Arr
  baseMVA : Int
deriving DecidableEq, Repr

/-- A pypower-style case dict (`ppc` or `ppci`): arrays, the cached
`internal` sub-structure, and the solve-result fields `success`,
`iterations`, `et`.  Python stores `success` as `1`/`True`; both compare
equal to `1`, so a `Bool` is a faithful model of the `!= 1` check. -/
structure PPC where
  baseMVA : Int
  bus : Arr
  gen : Arr
  branch : Arr
  internal : Internal
  success : Bool
  iterations : Nat
  et : Nat
deriving DecidableEq, Repr

/-- The `recycle` option dict: `none` models an absent key, `some b` a
present key with value `b` (the source tests `"k" in recycle and
recycle["k"]`, i.e. presence and truth). -/
structure RecycleOpts where
  bus_pq : Option Bool
  trafo : Option Bool
  gen : Option Bool
deriving DecidableEq, Repr

/-- The solve configuration `net["_options"]` (the fields this layer
reads). -/
structure PFOptions where
  init_results : Bool
  ac : Bool
  algorithm : String
  max_iteration : Nat
  mode : String
  voltage_depend_loads : Bool
  recycle : RecycleOpts
deriving DecidableEq, Repr

/-- The network model `net` (the fields this layer reads or writes):
options, the convergence flags, the stored internal case `net["_ppc"]`,
the branch lookup keys of `net._pd2ppc_lookups["branch"]`, and the
user-facing result tables (written only by external collaborators). -/
structure Net where
  options : PFOptions
  converged : Bool
  opf_converged : Bool
  ppc : PPC
  lookups_branch : List String
  res_tables : Arr
deriving DecidableEq, Repr

/-- The tuple returned by the external `_get_pf_variables_from_ppci`. -/
structure PFVars where
  baseMVA : Int
  bus : Arr
  gen : Arr
  branch : Arr
  ref : List Int
  pv : List Int
  pq : List Int
  npv : Nat
  npq : Nat
  V0 : List Int
  ref_gens : List Int
deriving DecidableEq, Repr

/-- Errors raised by the orchestration layer: `AlgorithmUnknown`,
`LoadflowNotConverged` (carrying the algorithm name and the iteration
cap that the source formats into its message), and the `ValueError`
raised on an invalid recycle configuration. -/
inductive PFErr where
  | algorithmUnknown (msg : String)
  | loadflowNotConverged (algorithm : String) (max_iteration : Nat)
  | valueError (msg : String)
deriving DecidableEq, Repr

/-- External collaborators of `powerflow.py`, consumed through fixed
contracts and modelled abstractly: theorems quantify over this record. -/
structure Externals where
  add_auxiliary_elements : Net → Net
  verify_results : Net → Net
  reset_results : Net → Net
  pd2ppc : Net → PPC × PPC
  run_bfswpf : PPC → PFOptions → PPC
  run_newton_raphson_pf : PPC → PFOptions → PPC
  runpf_pypower : PPC → PFOptions → PPC
  run_dc_pf : PPC → PPC
  copy_results_ppci_to_ppc : PPC → PPC → String → PPC
  clean_up : Net → Bool → Net
  extract_results : Net → PPC → Net
  calc_pq_elements_and_add_on_ppc : Net → PPC → PPC
  calc_trafo_parameter : Net → PPC → PPC
  calc_trafo3w_parameter : Net → PPC → PPC
  build_gen_ppc : Net → PPC → PPC
  nan_to_num : Arr → Arr
  ppc2ppci : PPC → Net → PPC → PPC
  makeYbus : Int → Arr → Arr → Arr × Arr × Arr
  get_pf_variables_from_ppci : PPC → PFVars
  pfsoln : Int → Arr → Arr → Arr → Arr × Arr × Arr → List Int → List Int → List Int → Arr × Arr × Arr

/-- The pypower bus-array column index `VM` (voltage magnitude). -/
def VM : Nat := 7

/-- Column extraction `a[:, j]`. -/
def getCol (a : Arr) (j : Nat) : List Int :=
  a.map fun row => row.getD j 0

/-- Embedding of `_pf_without_branches(ppci, options)`: builds the
admittance matrix directly, runs `pfsoln`, stores the returned arrays and
sets `success = True`, `iterations = 1`, `et = 0` unconditionally. -/
def _pf_without_branches (ext : Externals) (ppci : PPC) (options : PFOptions) : PPC :=
  let yb := ext.makeYbus ppci.baseMVA ppci.bus ppci.branch
  let v := ext.get_pf_variables_from_ppci ppci
  let V := getCol ppci.bus VM
  let r := ext.pfsoln v.baseMVA v.bus v.gen v.branch yb V v.ref v.ref_gens
  { ppci with
      bus := r.1, gen := r.2.1, branch := r.2.2,
      success := true, iterations := 1, et := 0,
      baseMVA := ppci.baseMVA, internal := ppci.internal }

/-- Embedding of `_run_pf_algorithm(ppci, options)`: the dispatcher.
Mirrors the source branch structure: the `ac` test is outermost; inside
it the zero-branch test, then the dispatch on the algorithm name, with
the `AlgorithmUnknown` raise as the final else; the DC backend is the
outer else. -/
def _run_pf_algorithm (ext : Externals) (ppci : PPC) (options : PFOptions) :
    Except PFErr PPC :=
  let algorithm := options.algorithm
  let ac := options.ac
  if ac then
    if ppci.branch.length = 0 then
      .ok (_pf_without_branches ext ppci options)
    else if algorithm = "bfsw" then
      .ok (ext.run_bfswpf ppci options)
    else if algorithm = "nr" ∨ algorithm = "iwamoto_nr" then
      .ok (ext.run_newton_raphson_pf ppci options)
    else if algorithm = "fdbx" ∨ algorithm = "fdxb" ∨ algorithm = "gs" then
      .ok (ext.runpf_pypower ppci options)
    else
      .error (.algorithmUnknown ("Algorithm " ++ algorithm ++ " is unknown!"))
  else
    .ok (ext.run_dc_pf ppci)

/-- Embedding of `_ppci_to_net(result, net)`: copies results onto the
stored `ppc`; if the copied result has `success != 1`, cleans up with
`res=False` and raises `LoadflowNotConverged` with the algorithm name and
iteration cap read after cleanup; otherwise stores the result as
`net["_ppc"]`, sets `net["converged"] = True`, extracts results and
cleans up. -/
def _ppci_to_net (ext : Externals) (result : PPC) (net : Net) : Net × Option PFErr :=
  let mode := net.options.mode
  let ppc := net.ppc
  let result := ext.copy_results_ppci_to_ppc result ppc mode
  if result.success ≠ true then
    let net := ext.clean_up net false
    let algorithm := net.options.algorithm
    let max_iteration := net.options.max_iteration
    (net, some (.loadflowNotConverged algorithm max_iteration))
  else
    let net := { net with ppc := result, converged := true }
    let net := ext.extract_results net result
    let net := ext.clean_up net true
    (net, none)

/-- The straight-line prefix of `_powerflow` before `_pd2ppc` is called:
reset the convergence flags, add auxiliary elements, verify or reset the
result tables, and force `voltage_depend_loads` to `False` for
algorithms outside `{nr, bfsw}`. -/
def _powerflow_setup (ext : Externals) (net : Net) : Net :=
  let init_results := net.options.init_results
  let ac := net.options.ac
  let algorithm := net.options.algorithm
  let net := { net with converged := false, opf_converged := false }
  let net := ext.add_auxiliary_elements net
  let net := if ¬ ac ∨ init_results then ext.verify_results net else ext.reset_results net
  if ¬ (algorithm = "nr" ∨ algorithm = "bfsw") then
    { net with options := { net.options with voltage_depend_loads := false } }
  else
    net

/-- Embedding of `_powerflow(net)`: setup, build the internal case, store
`ppc` on the net, dispatch, and commit the result; a dispatcher error
propagates past the stored `ppc` without rollback. -/
def _powerflow (ext : Externals) (net : Net) : Net × Option PFErr :=
  let net := _powerflow_setup ext net
  let bp := ext.pd2ppc net
  let net := { net with ppc := bp.1 }
  match _run_pf_algorithm ext bp.2 net.options with
  | .error e => (net, some e)
  | .ok result => _ppci_to_net ext result net

/-- Embedding of `_recycled_powerflow(net)`: builds a minimal `ppci` from
the cached `internal` sub-structure; DC solves run directly; AC solves
with an algorithm outside `{nr, iwamoto_nr}` raise `ValueError`;
otherwise the flagged recycle categories are reapplied (the trafo
sub-steps only when the branch lookup has the matching key), the reduced
case is re-derived and the Newton-Raphson backend runs.  In the source
`ppc` aliases `net["_ppc"]`, so the re-read of
`net["_ppc"]["internal"]` sees the updated `ppc.internal`. -/
def _recycled_powerflow (ext : Externals) (net : Net) : Net × Option PFErr :=
  let options := net.options
  let algorithm := options.algorithm
  let ac := options.ac
  let inter := net.ppc.internal
  let ppci : PPC :=
    { baseMVA := inter.baseMVA, bus := inter.bus, gen := inter.gen,
      branch := inter.branch, internal := inter,
      success := false, iterations := 0, et := 0 }
  if ¬ ac then
    let result := ext.run_dc_pf ppci
    _ppci_to_net ext result net
  else if ¬ (algorithm = "nr" ∨ algorithm = "iwamoto_nr") then
    (net, some (.valueError "recycle is only available with Newton-Raphson power flow. Choose algorithm=nr"))
  else
    let recycle := options.recycle
    let ppc := net.ppc
    let ppc := if recycle.bus_pq = some true then
        ext.calc_pq_elements_and_add_on_ppc net ppc
      else ppc
    let ppc := if recycle.trafo = some true then
        let lookup := net.lookups_branch
        let ppc := if lookup.contains "trafo" then ext.calc_trafo_parameter net ppc else ppc
        if lookup.contains "trafo3w" then ext.calc_trafo3w_parameter net ppc else ppc
      else ppc
    let ppc := if recycle.gen = some true then
        let ppc := ext.build_gen_ppc net ppc
        { ppc with gen := ext.nan_to_num ppc.gen }
      else ppc
    let ppci := ext.ppc2ppci ppc net ppci
    let ppci := { ppci with internal := ppc.internal }
    let net := { net with ppc := ppc }
    let result := ext.run_newton_raphson_pf ppci options
    _ppci_to_net ext result net

/-! ## Frame conditions on external collaborators

The specification scopes the external collaborators narrowly: auxiliary
element bookkeeping, result verification and reset touch result storage,
not the configuration or the convergence flag; cleanup removes transient
auxiliary elements; result extraction is purely additive on result
tables; result copying merges arrays positionally and carries the
convergence flag through.  Theorems that need one of these facts take it
as an explicit hypothesis, packaged below. -/

/-- The three externals run by the `_powerflow` setup prefix leave the
configuration and the convergence flag alone. -/
def SetupFrame (ext : Externals) : Prop :=
  (∀ n, (ext.add_auxiliary_elements n).options = n.options) ∧
  (∀ n, (ext.add_auxiliary_elements n).converged = n.converged) ∧
  (∀ n, (ext.verify_results n).options = n.options) ∧
  (∀ n, (ext.verify_results n).converged = n.converged) ∧
  (∀ n, (ext.reset_results n).options = n.options) ∧
  (∀ n, (ext.reset_results n).converged = n.converged)

/-- Cleanup removes auxiliary elements; it does not rewrite the
configuration or the convergence flag. -/
def CleanUpFrame (ext : Externals) : Prop :=
  (∀ n b, (ext.clean_up n b).options = n.options) ∧
  (∀ n b, (ext.clean_up n b).converged = n.converged)

/-- Result extraction is purely additive on result tables; it does not
rewrite the convergence flag. -/
def ExtractFrame (ext : Externals) : Prop :=
  ∀ n p, (ext.extract_results n p).converged = n.converged

/-- Result copying carries the solve-result convergence flag through. -/
def CopyFrame (ext : Externals) : Prop :=
  ∀ r p m, (ext.copy_results_ppci_to_ppc r p m).success = r.success

/-! ## Concrete instances used by witnesses and counterexamples -/

/-- A cached internal sub-structure with one branch row. -/
def internal0 : Internal :=
  { bus := [[0, 0, 0, 0, 0, 0, 0, 1]], gen := [[1]], branch := [[1]], baseMVA := 1 }

/-- A stored case with one branch row. -/
def ppc0 : PPC :=
  { baseMVA := 1, bus := [[0, 0, 0, 0, 0, 0, 0, 1]], gen := [[1]],
    branch := [[1]], internal := internal0, success := false,
    iterations := 0, et := 0 }

/-- A reduced case with zero branch rows. -/
def ppcNoBranch : PPC :=
  { baseMVA := 1, bus := [[0, 0, 0, 0, 0, 0, 0, 1]], gen := [[1]],
    branch := [], internal := internal0, success := false,
    iterations := 0, et := 0 }

/-- A recycle dict with every key absent. -/
def recycleNone : RecycleOpts := { bus_pq := none, trafo := none, gen := none }

/-- Baseline AC Newton-Raphson configuration. -/
def opts0 : PFOptions :=
  { init_results := false, ac := true, algorithm := "nr", max_iteration := 10,
    mode := "pf", voltage_depend_loads := true, recycle := recycleNone }

/-- Baseline network with one stored branch row. -/
def net0 : Net :=
  { options := opts0, converged := false, opf_converged := false,
    ppc := ppc0, lookups_branch := [], res_tables := [] }

/-- Concrete external collaborators for witnesses and counterexamples:
builders return the stored case, backends report success, bookkeeping is
the identity. -/
def extBase : Externals :=
  { add_auxiliary_elements := id
    verify_results := id
    reset_results := id
    pd2ppc := fun n => (n.ppc, n.ppc)
    run_bfswpf := fun p _ => { p with success := true }
    run_newton_raphson_pf := fun p _ => { p with success := true }
    runpf_pypower := fun p _ => { p with success := true }
    run_dc_pf := fun p => { p with success := true }
    copy_results_ppci_to_ppc := fun r _ _ => r
    clean_up := fun n _ => n
    extract_results := fun n _ => n
    calc_pq_elements_and_add_on_ppc := fun _ p => p
    calc_trafo_parameter := fun _ p => p
    calc_trafo3w_parameter := fun _ p => p
    build_gen_ppc := fun _ p => p
    nan_to_num := id
    ppc2ppci := fun _ _ ppci => ppci
    makeYbus := fun _ _ _ => ([], [], [])
    get_pf_variables_from_ppci := fun p =>
      { baseMVA := p.baseMVA, bus := p.bus, gen := p.gen, branch := p.branch,
        ref := [0], pv := [], pq := [], npv := 0, npq := 0, V0 := [1],
        ref_gens := [0] }
    pfsoln := fun _ b g br _ _ _ _ => (b, g, br) }

/-- Concrete externals whose DC backend tags its output with
`iterations = 77`, to distinguish it from the branch-less path. -/
def ext7 : Externals :=
  { extBase with run_dc_pf := fun p => { p with success := true, iterations := 77 } }

/-- DC configuration. -/
def optsDC : PFOptions := { opts0 with ac := false }

/-- C10: with `ac = false` the dispatcher returns the DC backend result
without inspecting the algorithm name, for every algorithm string and
every reduced case; in particular it never raises `AlgorithmUnknown`. -/
theorem c10_dc_ignores_algorithm (ext : Externals) (ppci : PPC) (options : PFOptions)
    (hac : options.ac = false) :
    _run_pf_algorithm ext ppci options = .ok (ext.run_dc_pf ppci) := by
  simp [_run_pf_algorithm, hac]

/-- Witness for C10 at a concrete un(recognized) algorithm name. -/
theorem c10_dc_ignores_algorithm_witness :
    _run_pf_algorithm extBase ppc0 { optsDC with algorithm := "not-a-real-algorithm" } =
      .ok (extBase.run_dc_pf ppc0) :=
  c10_dc_ignores_algorithm extBase ppc0 { optsDC with algorithm := "not-a-real-algorithm" } rfl

/-- C4: with `ac = true`, an algorithm name outside
`{nr, iwamoto_nr, bfsw, fdbx, fdxb, gs}` and at least one branch row, the
dispatcher raises `AlgorithmUnknown`, and the outcome is independent of
every external collaborator, so no solver backend is invoked. -/
theorem c4_unknown_algorithm_rejected (ext : Externals) (ppci : PPC) (options : PFOptions)
    (hac : options.ac = true)
    (halg : options.algorithm ∉ (["nr", "iwamoto_nr", "bfsw", "fdbx", "fdxb", "gs"] : List String))
    (hbr : ppci.branch.length ≠ 0) :
    _run_pf_algorithm ext ppci options =
      .error (PFErr.algorithmUnknown ("Algorithm " ++ options.algorithm ++ " is unknown!"))
    ∧ ∀ ext2 : Externals, _run_pf_algorithm ext2 ppci options =
        _run_pf_algorithm ext ppci options := by
  simp only [List.mem_cons, List.not_mem_nil, or_false, not_or] at halg
  obtain ⟨h1, h2, h3, h4, h5, h6⟩ := halg
  refine ⟨?_, fun ext2 => ?_⟩ <;>
    simp [_run_pf_algorithm, hac, hbr, h1, h2, h3, h4, h5, h6]

/-- Witness for C4 at a concrete unrecognized algorithm name. -/
theorem c4_unknown_algorithm_rejected_witness :
    _run_pf_algorithm extBase ppc0 { opts0 with algorithm := "not-a-real-algorithm" } =
      .error (PFErr.algorithmUnknown "Algorithm not-a-real-algorithm is unknown!")
    ∧ ∀ ext2 : Externals, _run_pf_algorithm ext2 ppc0 { opts0 with algorithm := "not-a-real-algorithm" } =
        _run_pf_algorithm extBase ppc0 { opts0 with algorithm := "not-a-real-algorithm" } :=
  c4_unknown_algorithm_rejected extBase ppc0 { opts0 with algorithm := "not-a-real-algorithm" }
    rfl (by decide) (by decide)

/-- C3: with `ac = true` and zero branch rows, the dispatcher takes the
branch-less direct path, whose result has `success = true`,
`iterations = 1` and `et = 0`, for every bus array, generator array and
algorithm name. -/
theorem c3_branchless_direct_path (ext : Externals) (ppci : PPC) (options : PFOptions)
    (hac : options.ac = true) (hbr : ppci.branch.length = 0) :
    _run_pf_algorithm ext ppci options = .ok (_pf_without_branches ext ppci options)
    ∧ (_pf_without_branches ext ppci options).success = true
    ∧ (_pf_without_branches ext ppci options).iterations = 1
    ∧ (_pf_without_branches ext ppci options).et = 0 := by
  exact ⟨by simp [_run_pf_algorithm, hac, hbr], rfl, rfl, rfl⟩

/-- Witness for C3 at a concrete zero-branch case with an unrecognized
algorithm name. -/
theorem c3_branchless_direct_path_witness :
    _run_pf_algorithm extBase ppcNoBranch { opts0 with algorithm := "gibberish" } =
      .ok (_pf_without_branches extBase ppcNoBranch { opts0 with algorithm := "gibberish" })
    ∧ (_pf_without_branches extBase ppcNoBranch { opts0 with algorithm := "gibberish" }).success = true
    ∧ (_pf_without_branches extBase ppcNoBranch { opts0 with algorithm := "gibberish" }).iterations = 1
    ∧ (_pf_without_branches extBase ppcNoBranch { opts0 with algorithm := "gibberish" }).et = 0 :=
  c3_branchless_direct_path extBase ppcNoBranch { opts0 with algorithm := "gibberish" } rfl rfl

/-- C7 counterexample: a zero-branch case with `ac = false` is routed to
the DC backend, not to the branch-less direct path — the `ac` test comes
before the zero-branch test, contradicting the claimed priority order.
`ext7` makes the two outcomes observably different. -/
theorem c7_counterexample :
    _run_pf_algorithm ext7 ppcNoBranch optsDC = .ok (ext7.run_dc_pf ppcNoBranch)
    ∧ ext7.run_dc_pf ppcNoBranch ≠ _pf_without_branches ext7 ppcNoBranch optsDC := by
  exact ⟨rfl, by decide⟩

/-- C7 amended: the dispatcher tests `config.ac` first; a zero-branch
case takes the branch-less direct path only when `ac = true`, and goes to
the DC backend when `ac = false`. -/
theorem c7_ac_test_first (ext : Externals) (ppci : PPC) (options : PFOptions)
    (hbr : ppci.branch.length = 0) :
    _run_pf_algorithm ext ppci options =
      if options.ac then .ok (_pf_without_branches ext ppci options)
      else .ok (ext.run_dc_pf ppci) := by
  by_cases hac : options.ac <;> simp [_run_pf_algorithm, hac, hbr]

/-- Witness for the amended C7 at a concrete zero-branch DC case. -/
theorem c7_ac_test_first_witness :
    _run_pf_algorithm extBase ppcNoBranch optsDC =
      if optsDC.ac then .ok (_pf_without_branches extBase ppcNoBranch optsDC)
      else .ok (extBase.run_dc_pf ppcNoBranch) :=
  c7_ac_test_first extBase ppcNoBranch optsDC rfl

/-- C2: when the solve result reaching the commit step has
`success = false` (and result copying preserves the flag, cleanup leaves
the configuration alone), `_ppci_to_net` returns exactly the cleaned-up
network — cleanup with `res = False`, discarding partial results — paired
with a `LoadflowNotConverged` error carrying the configured algorithm
name and iteration cap; the outcome also never depends on the result
extractor, so extraction is never run. -/
theorem c2_nonconverged_commit (ext : Externals) (result : PPC) (net : Net)
    (hcopy : CopyFrame ext)
    (hclean : ∀ n b, (ext.clean_up n b).options = n.options)
    (hfail : result.success = false) :
    _ppci_to_net ext result net =
      (ext.clean_up net false,
       some (PFErr.loadflowNotConverged net.options.algorithm net.options.max_iteration))
    ∧ ∀ f, _ppci_to_net { ext with extract_results := f } result net =
        _ppci_to_net ext result net := by
  have hs : (ext.copy_results_ppci_to_ppc result net.ppc net.options.mode).success = false := by
    rw [hcopy]; exact hfail
  refine ⟨?_, fun f => ?_⟩ <;> simp [_ppci_to_net, hs, hclean net false]

/-- Witness for C2 at a concrete failed solve result. -/
theorem c2_nonconverged_commit_witness :
    _ppci_to_net extBase ppc0 net0 =
      (extBase.clean_up net0 false,
       some (PFErr.loadflowNotConverged net0.options.algorithm net0.options.max_iteration))
    ∧ ∀ f, _ppci_to_net { extBase with extract_results := f } ppc0 net0 =
        _ppci_to_net extBase ppc0 net0 :=
  c2_nonconverged_commit extBase ppc0 net0 (fun _ _ _ => rfl) (fun _ _ => rfl) rfl

/-- A recycle dict with only the `gen` key present and true. -/
def recycleGenOnly : RecycleOpts := { recycleNone with gen := some true }

/-- Network requesting a DC recycled solve with a non-Newton algorithm
and `recycle.gen = true`. -/
def net5 : Net :=
  { net0 with options := { optsDC with algorithm := "bfsw", recycle := recycleGenOnly } }

/-- Network requesting an AC recycled solve with a non-Newton algorithm
and `recycle.gen = true`. -/
def net5ac : Net :=
  { net0 with options := { opts0 with algorithm := "bfsw", recycle := recycleGenOnly } }

/-- C5 counterexample: a DC recycled solve (`ac = false`) with
`algorithm = "bfsw"` and `recycle.gen = true` does not fail at all — the
DC backend runs and the solve completes — because the algorithm check
sits after the DC early return. -/
theorem c5_counterexample :
    (_recycled_powerflow extBase net5).2 = none
    ∧ (_recycled_powerflow extBase net5).1.converged = true := by
  exact ⟨rfl, rfl⟩

/-- C5 amended: only for `ac = true` does a recycled solve with an
algorithm outside `{nr, iwamoto_nr}` fail with the recycle configuration
`ValueError`; it then fails before any state change or backend call (the
network is returned unchanged for every choice of externals). -/
theorem c5_recycle_check_is_ac_only (ext : Externals) (net : Net)
    (hac : net.options.ac = true)
    (_hgen : net.options.recycle.gen = some true)
    (halg : net.options.algorithm ∉ (["nr", "iwamoto_nr"] : List String)) :
    _recycled_powerflow ext net =
      (net, some (PFErr.valueError
        "recycle is only available with Newton-Raphson power flow. Choose algorithm=nr")) := by
  simp only [List.mem_cons, List.not_mem_nil, or_false, not_or] at halg
  obtain ⟨h1, h2⟩ := halg
  simp [_recycled_powerflow, hac, h1, h2]

/-- Witness for the amended C5 at a concrete AC recycled solve. -/
theorem c5_recycle_check_is_ac_only_witness :
    _recycled_powerflow extBase net5ac =
      (net5ac, some (PFErr.valueError
        "recycle is only available with Newton-Raphson power flow. Choose algorithm=nr")) :=
  c5_recycle_check_is_ac_only extBase net5ac rfl rfl (by decide)

/-- A recycle dict with only the `trafo` key present and true. -/
def recycleTrafoOnly : RecycleOpts := { recycleNone with trafo := some true }

/-- Network for C8: AC Newton recycled solve, `recycle.trafo = true`,
but the branch lookup has no trafo (and no trafo3w) entry. -/
def net8 : Net :=
  { net0 with options := { opts0 with recycle := recycleTrafoOnly },
              lookups_branch := ["line"] }

/-- C8: in a recycled AC Newton-family solve (`nr` or `iwamoto_nr`),
`recycle.trafo = true` with no `trafo` or `trafo3w` entry in the branch
lookup is a no-op: the outcome does not depend on the transformer-update
collaborators at all (they are never invoked), and the call never fails
with the recycle configuration `ValueError`. -/
theorem c8_absent_trafo_category_noop (ext : Externals) (f g : Net → PPC → PPC) (net : Net)
    (hac : net.options.ac = true)
    (halg : net.options.algorithm = "nr" ∨ net.options.algorithm = "iwamoto_nr")
    (_htr : net.options.recycle.trafo = some true)
    (h1 : "trafo" ∉ net.lookups_branch)
    (h2 : "trafo3w" ∉ net.lookups_branch) :
    _recycled_powerflow { ext with calc_trafo_parameter := f, calc_trafo3w_parameter := g } net
      = _recycled_powerflow ext net
    ∧ ∀ msg, (_recycled_powerflow ext net).2 ≠ some (PFErr.valueError msg) := by
  have key : ∀ msg r n, (_ppci_to_net ext r n).2 ≠ some (PFErr.valueError msg) := by
    intro msg r n
    simp only [_ppci_to_net]
    split <;> simp
  rcases halg with halg | halg <;>
    exact ⟨by simp [_recycled_powerflow, _ppci_to_net, hac, halg, h1, h2],
           fun msg => by
             simp only [_recycled_powerflow]
             simp [hac, halg]
             exact key _ _ _⟩

/-- Witness for C8 at a concrete transformer-less network, with
transformer updaters that would visibly change the case if invoked. -/
theorem c8_absent_trafo_category_noop_witness :
    _recycled_powerflow { extBase with calc_trafo_parameter := fun _ p => { p with baseMVA := 99 },
                                       calc_trafo3w_parameter := fun _ p => { p with baseMVA := 77 } } net8
      = _recycled_powerflow extBase net8
    ∧ ∀ msg, (_recycled_powerflow extBase net8).2 ≠ some (PFErr.valueError msg) :=
  c8_absent_trafo_category_noop extBase (fun _ p => { p with baseMVA := 99 })
    (fun _ p => { p with baseMVA := 77 }) net8 rfl (Or.inl rfl) rfl (by decide) (by decide)

/-- Under the setup frame, the `_powerflow` setup prefix leaves the
configuration unchanged except for the forced `voltage_depend_loads`. -/
theorem powerflow_setup_options (ext : Externals) (net : Net) (hf : SetupFrame ext) :
    (_powerflow_setup ext net).options =
      (if net.options.algorithm = "nr" ∨ net.options.algorithm = "bfsw" then net.options
       else { net.options with voltage_depend_loads := false }) := by
  obtain ⟨ha, _, hv, _, hr, _⟩ := hf
  simp only [_powerflow_setup]
  by_cases halg : net.options.algorithm = "nr" ∨ net.options.algorithm = "bfsw" <;>
    simp [halg, ha, hv, hr, apply_ite (fun n : Net => n.options)]

/-- Under the setup frame, the `_powerflow` setup prefix leaves the
convergence flag at the `False` written at entry. -/
theorem powerflow_setup_converged (ext : Externals) (net : Net) (hf : SetupFrame ext) :
    (_powerflow_setup ext net).converged = false := by
  obtain ⟨_, ha, _, hv, _, hr⟩ := hf
  simp only [_powerflow_setup]
  by_cases halg : net.options.algorithm = "nr" ∨ net.options.algorithm = "bfsw" <;>
    simp [halg, ha, hv, hr, apply_ite (fun n : Net => n.converged)]

/-- C9: in a full solve, the setup prefix (everything `_powerflow` does
before the internal-case builder `_pd2ppc` runs, as factored into
`_powerflow_setup`) forces `voltage_depend_loads` to `false` exactly when
the configured algorithm is outside `{nr, bfsw}`, and leaves it unchanged
for `nr` and `bfsw`; `_powerflow` then hands exactly this setup state to
the case builder. -/
theorem c9_voltage_depend_loads_forced (ext : Externals) (net : Net) (hf : SetupFrame ext) :
    (_powerflow_setup ext net).options.voltage_depend_loads =
      (if net.options.algorithm = "nr" ∨ net.options.algorithm = "bfsw"
       then net.options.voltage_depend_loads else false)
    ∧ _powerflow ext net =
        (match _run_pf_algorithm ext (ext.pd2ppc (_powerflow_setup ext net)).2
            { _powerflow_setup ext net with
                ppc := (ext.pd2ppc (_powerflow_setup ext net)).1 }.options with
         | .error e =>
             ({ _powerflow_setup ext net with
                  ppc := (ext.pd2ppc (_powerflow_setup ext net)).1 }, some e)
         | .ok result =>
             _ppci_to_net ext result
               { _powerflow_setup ext net with
                   ppc := (ext.pd2ppc (_powerflow_setup ext net)).1 }) := by
  constructor
  · rw [powerflow_setup_options ext net hf]
    split <;> rfl
  · rfl

/-- Network with a non-Newton, non-sweep algorithm for the C9 witness. -/
def netC9 : Net := { net0 with options := { opts0 with algorithm := "fdbx" } }

/-- Witness for C9 at a concrete fast-decoupled configuration. -/
theorem c9_voltage_depend_loads_forced_witness :
    (_powerflow_setup extBase netC9).options.voltage_depend_loads =
      (if netC9.options.algorithm = "nr" ∨ netC9.options.algorithm = "bfsw"
       then netC9.options.voltage_depend_loads else false)
    ∧ _powerflow extBase netC9 =
        (match _run_pf_algorithm extBase (extBase.pd2ppc (_powerflow_setup extBase netC9)).2
            { _powerflow_setup extBase netC9 with
                ppc := (extBase.pd2ppc (_powerflow_setup extBase netC9)).1 }.options with
         | .error e =>
             ({ _powerflow_setup extBase netC9 with
                  ppc := (extBase.pd2ppc (_powerflow_setup extBase netC9)).1 }, some e)
         | .ok result =>
             _ppci_to_net extBase result
               { _powerflow_setup extBase netC9 with
                   ppc := (extBase.pd2ppc (_powerflow_setup extBase netC9)).1 }) :=
  c9_voltage_depend_loads_forced extBase netC9
    ⟨fun _ => rfl, fun _ => rfl, fun _ => rfl, fun _ => rfl, fun _ => rfl, fun _ => rfl⟩

/-- Dispatcher outcome for an unrecognized AC algorithm on a case with at
least one branch (helper shared by several developments). -/
theorem run_pf_algorithm_unknown_outcome (ext : Externals) (ppci : PPC) (options : PFOptions)
    (hac : options.ac = true)
    (h1 : options.algorithm ≠ "nr") (h2 : options.algorithm ≠ "iwamoto_nr")
    (h3 : options.algorithm ≠ "bfsw") (h4 : options.algorithm ≠ "fdbx")
    (h5 : options.algorithm ≠ "fdxb") (h6 : options.algorithm ≠ "gs")
    (hbr : ppci.branch.length ≠ 0) :
    _run_pf_algorithm ext ppci options =
      .error (PFErr.algorithmUnknown ("Algorithm " ++ options.algorithm ++ " is unknown!")) := by
  simp [_run_pf_algorithm, hac, hbr, h1, h2, h3, h4, h5, h6]

/-- Network with an unrecognized algorithm and `converged = true` at
entry (stale from an earlier successful solve). -/
def net6 : Net := { net0 with converged := true, options := { opts0 with algorithm := "zzz" } }

/-- C6 counterexample: a full solve that fails with `AlgorithmUnknown`
does not leave the network as it was at entry — the convergence flag was
reset to `false` at the start of the solve and is not restored when the
error propagates. -/
theorem c6_counterexample :
    (_powerflow extBase net6).2 = some (PFErr.algorithmUnknown "Algorithm zzz is unknown!")
    ∧ (_powerflow extBase net6).1.converged ≠ net6.converged := by
  exact ⟨rfl, by decide⟩

/-- C6 amended: when a full solve fails with `AlgorithmUnknown`, the
error propagates immediately after dispatch with no rollback: the
returned network is the setup state (convergence flags reset, auxiliary
elements added, result tables verified or reset, `voltage_depend_loads`
possibly forced) with the builder's `ppc` stored on it, and its
`converged` flag is `false` — not the entry state. -/
theorem c6_unknown_algorithm_no_rollback (ext : Externals) (net : Net) (hf : SetupFrame ext)
    (hac : net.options.ac = true)
    (halg : net.options.algorithm ∉ (["nr", "iwamoto_nr", "bfsw", "fdbx", "fdxb", "gs"] : List String))
    (hbr : (ext.pd2ppc (_powerflow_setup ext net)).2.branch.length ≠ 0) :
    _powerflow ext net =
      ({ _powerflow_setup ext net with ppc := (ext.pd2ppc (_powerflow_setup ext net)).1 },
       some (PFErr.algorithmUnknown ("Algorithm " ++ net.options.algorithm ++ " is unknown!")))
    ∧ (_powerflow ext net).1.converged = false := by
  simp only [List.mem_cons, List.not_mem_nil, or_false, not_or] at halg
  obtain ⟨h1, h2, h3, h4, h5, h6⟩ := halg
  have hopt := powerflow_setup_options ext net hf
  have halgs : (_powerflow_setup ext net).options.algorithm = net.options.algorithm := by
    rw [hopt]; split <;> rfl
  have hacs : (_powerflow_setup ext net).options.ac = true := by
    rw [hopt]; split <;> exact hac
  have hrun : _run_pf_algorithm ext (ext.pd2ppc (_powerflow_setup ext net)).2
      { _powerflow_setup ext net with
          ppc := (ext.pd2ppc (_powerflow_setup ext net)).1 }.options =
      .error (PFErr.algorithmUnknown ("Algorithm " ++ net.options.algorithm ++ " is unknown!")) := by
    have e := run_pf_algorithm_unknown_outcome ext (ext.pd2ppc (_powerflow_setup ext net)).2
      (_powerflow_setup ext net).options hacs
      (by rw [halgs]; exact h1) (by rw [halgs]; exact h2) (by rw [halgs]; exact h3)
      (by rw [halgs]; exact h4) (by rw [halgs]; exact h5) (by rw [halgs]; exact h6) hbr
    rw [halgs] at e
    exact e
  have heq : _powerflow ext net =
      ({ _powerflow_setup ext net with ppc := (ext.pd2ppc (_powerflow_setup ext net)).1 },
       some (PFErr.algorithmUnknown ("Algorithm " ++ net.options.algorithm ++ " is unknown!"))) := by
    simp only [_powerflow]
    rw [hrun]
  refine ⟨heq, ?_⟩
  rw [heq]
  exact powerflow_setup_converged ext net hf

/-- Witness for the amended C6 at a concrete unrecognized algorithm. -/
theorem c6_unknown_algorithm_no_rollback_witness :
    _powerflow extBase net6 =
      ({ _powerflow_setup extBase net6 with
           ppc := (extBase.pd2ppc (_powerflow_setup extBase net6)).1 },
       some (PFErr.algorithmUnknown ("Algorithm " ++ net6.options.algorithm ++ " is unknown!")))
    ∧ (_powerflow extBase net6).1.converged = false :=
  c6_unknown_algorithm_no_rollback extBase net6
    ⟨fun _ => rfl, fun _ => rfl, fun _ => rfl, fun _ => rfl, fun _ => rfl, fun _ => rfl⟩
    rfl (by decide) (by decide)

/-- How the commit step treats the convergence flag: a successful commit
sets it to `true`; a failing commit leaves the incoming value untouched
(helper shared by several developments). -/
theorem ppci_to_net_flag (ext : Externals) (result : PPC) (net : Net)
    (hcl : CleanUpFrame ext) (hex : ExtractFrame ext) :
    ((_ppci_to_net ext result net).2 = none → (_ppci_to_net ext result net).1.converged = true)
    ∧ ((_ppci_to_net ext result net).2 ≠ none →
        (_ppci_to_net ext result net).1.converged = net.converged) := by
  obtain ⟨_, hclc⟩ := hcl
  simp only [_ppci_to_net]
  split
  · constructor
    · intro h; simp at h
    · intro _; exact hclc net false
  · constructor
    · intro _
      rw [hclc, hex]
    · intro h; exact absurd rfl h

/-- Externals whose Newton backend reports non-convergence. -/
def ext1 : Externals :=
  { extBase with run_newton_raphson_pf := fun p _ => { p with success := false } }

/-- Network whose previous solve left `converged = true`, about to run a
recycled Newton solve. -/
def net1 : Net := { net0 with converged := true }

/-- C1 counterexample: a recycled solve whose Newton backend reports
`success = false` raises `LoadflowNotConverged` while `net.converged`
still holds the stale `true` from the earlier solve — the recycled entry
point never resets the flag and the failing commit path never writes
it. -/
theorem c1_counterexample :
    (_recycled_powerflow ext1 net1).2 = some (PFErr.loadflowNotConverged "nr" 10)
    ∧ (_recycled_powerflow ext1 net1).1.converged = true := by
  exact ⟨rfl, rfl⟩

/-- C1 amended: the claimed invariant holds for the full-solve entry
point `_powerflow` — after the attempt, `net.converged` is `true` exactly
when the attempt completed without error (the flag is reset to `false` at
entry and set `true` only on a successful commit) — but not for
`_recycled_powerflow`, which never resets the flag, so a failing recycled
attempt leaves whatever value an earlier solve stored. -/
theorem c1_full_solve_converged_iff (ext : Externals) (net : Net) (hf : SetupFrame ext)
    (hcl : CleanUpFrame ext) (hex : ExtractFrame ext) :
    ((_powerflow ext net).1.converged = true) ↔ (_powerflow ext net).2 = none := by
  have hsc := powerflow_setup_converged ext net hf
  simp only [_powerflow]
  cases hrun : _run_pf_algorithm ext (ext.pd2ppc (_powerflow_setup ext net)).2
      { _powerflow_setup ext net with
          ppc := (ext.pd2ppc (_powerflow_setup ext net)).1 }.options with
  | error e => simp [hsc]
  | ok r =>
    obtain ⟨h1, h2⟩ := ppci_to_net_flag ext r
      { _powerflow_setup ext net with
          ppc := (ext.pd2ppc (_powerflow_setup ext net)).1 } hcl hex
    by_cases hn : (_ppci_to_net ext r
        { _powerflow_setup ext net with
            ppc := (ext.pd2ppc (_powerflow_setup ext net)).1 }).2 = none
    · simp [hn, h1 hn]
    · have hc := h2 hn
      rw [hc]
      constructor
      · intro htrue
        have h' : (_powerflow_setup ext net).converged = true := htrue
        rw [hsc] at h'
        exact absurd h' (by simp)
      · intro h
        exact absurd h hn

/-- Witness for the amended C1 at a concrete successful full solve. -/
theorem c1_full_solve_converged_iff_witness :
    ((_powerflow extBase net0).1.converged = true) ↔ (_powerflow extBase net0).2 = none :=
  c1_full_solve_converged_iff extBase net0
    ⟨fun _ => rfl, fun _ => rfl, fun _ => rfl, fun _ => rfl, fun _ => rfl, fun _ => rfl⟩
    ⟨fun _ _ => rfl, fun _ _ => rfl⟩ (fun _ _ => rfl)
